import Mathlib

/-!
Verification of the ParAI-D scoring engine (src/engine.py) against its
natural-language specification.

The engine compares a findings record (a Python dict mapping field names to
lists of strings, or occasionally bare strings) against reference records
(pandas rows, here modelled as association lists from column name to the raw
semicolon-joined cell string).  Python floats and ints are modelled as exact
rationals; Python string operations lower/strip/split are modelled by
the structurally recursive pyLower/pyStrip/pySplitOnSemi below.
-/

namespace ParAID

/-- Python str.lower(): lowercase character by character (Char.toLower, the
ASCII range, which covers every token the engine compares). -/
def pyLower (s : String) : String := ⟨s.data.map Char.toLower⟩

/-- Python str.strip(): drop leading and trailing whitespace. -/
def pyStrip (s : String) : String :=
  ⟨((s.data.dropWhile Char.isWhitespace).reverse.dropWhile
      Char.isWhitespace).reverse⟩

/-- Split a character list at every semicolon (Python str.split(";"):
the empty string yields one empty piece). -/
def splitSemi : List Char → List (List Char)
  | [] => [[]]
  | c :: cs =>
      if c = ';' then [] :: splitSemi cs
      else
        match splitSemi cs with
        | [] => [[c]]
        | p :: ps => (c :: p) :: ps

/-- Python str.split(";") on a string. -/
def pySplitOnSemi (s : String) : List String :=
  (splitSemi s.data).map (fun l => ⟨l⟩)

/-- A Python value stored in the findings record for one field: either a list
of strings (the intended shape) or a bare string.  Python iterates a bare
string character by character, which the model reproduces in pyIter. -/
inductive PyVal where
  | vstr (s : String)
  | vlist (l : List String)
deriving DecidableEq

/-- Iterating a Python value: a list yields its elements, a string yields its
characters (as one-character strings). -/
def pyIter : PyVal → List String
  | .vstr s => s.toList.map Char.toString
  | .vlist l => l

/-- Sentinel used by the app to represent not-chosen single-selects
(engine.py line 4). -/
def SENTINEL : String := "__unset__"

/-- The tuple of placeholder values tested by valid_user
(engine.py lines 44 and 46). -/
def sentinels : List String := ["unknown", "choose…", "choose...", SENTINEL, ""]

/-- One reference row: an association list from column name to the raw cell
string (pandas row modelled as a mapping). -/
def RefRow := List (String × String)
deriving DecidableEq, Inhabited

/-- row.get(field, ""): value of a column, defaulting to the empty string. -/
def rget (row : RefRow) (f : String) : String :=
  ((List.lookup f row).getD "")

/-- _split (engine.py lines 32-35): split semicolon-separated values to a
lower-cased, stripped list, dropping blank pieces. -/
def pySplit (v : String) : List String :=
  ((pySplitOnSemi v).filter (fun s => !(s == "") && !(pyStrip s == ""))).map
    (fun s => pyLower (pyStrip s))

/-- gl (engine.py lines 67-68): the token list of a reference field. -/
def gl (row : RefRow) (f : String) : List String :=
  pySplit (rget row f)

/-- _valid_user (engine.py lines 37-46): true only if the user provided a
meaningful value (not empty, not a placeholder). -/
def valid_user : PyVal → Bool
  | .vlist l =>
      ((l.filter (fun x => !(pyStrip x == ""))).map pyLower).any
        (fun x => !(sentinels.contains x))
  | .vstr s => !(sentinels.contains (pyLower s))

/-- _match_any (engine.py lines 48-53): at least one user value matches any
db value (lowercased, blanks dropped on both sides). -/
def match_any (user_vals db_vals : List String) : Bool :=
  ((user_vals.filter (fun x => !(pyStrip x == ""))).map pyLower).any
    (fun x =>
      ((db_vals.filter (fun y => !(pyStrip y == ""))).map pyLower).contains x)

/-- The findings record supplied by the caller (user_input in engine.py). -/
def UserInput := List (String × PyVal)
deriving DecidableEq

/-- user_input.get(field, []): missing keys default to the empty list. -/
def uget (ui : UserInput) (f : String) : PyVal :=
  ((List.lookup f ui).getD (.vlist []))

/-- The repeated match-if-set pattern (engine.py lines 70-78, 95-103,
117-120): weight w is awarded iff the finding is set and matches. -/
def matchIfSetScore (w : ℚ) (f : String) (row : RefRow) (ui : UserInput) : ℚ :=
  if valid_user (uget ui f) && match_any (pyIter (uget ui f)) (gl row f)
  then w else 0

/-- Vector Exposure block (engine.py lines 80-86), with the special
other(including unknown) rule. -/
def vectorScore (row : RefRow) (ui : UserInput) : ℚ :=
  if valid_user (uget ui "Vector Exposure") then
    if (pyIter (uget ui "Vector Exposure")).map pyLower =
        ["other(including unknown)"] then 8
    else if match_any ((pyIter (uget ui "Vector Exposure")).map pyLower)
        (gl row "Vector Exposure") then 8
    else 0
  else 0

/-- Symptoms block (engine.py lines 88-93): proportional credit. -/
def symptomsScore (row : RefRow) (ui : UserInput) : ℚ :=
  if valid_user (uget ui "Symptoms") then
    (10 / max 1 (((pyIter (uget ui "Symptoms")).length : ℚ))) *
      (((pyIter (uget ui "Symptoms")).filter
          (fun s => (gl row "Symptoms").contains (pyLower s))).length : ℚ)
  else 0

/-- The one-element-or-sentinel list u = lowered(value)[:1] or [SENTINEL]
pattern (engine.py lines 106, 124, 135, 142). -/
def firstOrSentinel (v : PyVal) : List String :=
  if ((pyIter v).map pyLower).take 1 = [] then [SENTINEL]
  else ((pyIter v).map pyLower).take 1

/-- Blood Film block (engine.py lines 105-115): asymmetric negative penalty
-10 / positive credit +15. -/
def bloodFilmScore (row : RefRow) (ui : UserInput) : ℚ :=
  if valid_user (.vlist (firstOrSentinel (uget ui "Blood Film Result"))) then
    if (firstOrSentinel (uget ui "Blood Film Result")).headD SENTINEL =
        "negative" then
      if (gl row "Blood Film Result").all (fun x => !(x == "negative"))
      then -10 else 0
    else
      if (gl row "Blood Film Result").any (fun x => !(x == "negative"))
      then 15 else 0
  else 0

/-- Liver Function Tests block (engine.py lines 122-127) with the Variable
rule. -/
def lftScore (row : RefRow) (ui : UserInput) : ℚ :=
  if valid_user (.vlist (firstOrSentinel (uget ui "Liver Function Tests"))) then
    if (gl row "Liver Function Tests").contains "variable" ||
        (gl row "Liver Function Tests").contains
          ((firstOrSentinel (uget ui "Liver Function Tests")).headD SENTINEL)
    then 5 else 0
  else 0

/-- One binary field (engine.py lines 129-138), weight 5, Variable rule. -/
def binaryScore (f : String) (row : RefRow) (ui : UserInput) : ℚ :=
  if valid_user (.vlist (firstOrSentinel (uget ui f))) &&
      ((gl row f).contains "variable" ||
        (gl row f).contains ((firstOrSentinel (uget ui f)).headD SENTINEL))
  then 5 else 0

/-- The eight binary fields of the for-loop (engine.py lines 130-134). -/
def binaryFields : List String :=
  ["Neurological Involvement", "Eosinophilia", "Fever", "Diarrhea",
   "Bloody Diarrhea", "Stool Cysts or Ova", "Anemia", "High IgE Level"]

/-- Cysts on Imaging block (engine.py lines 140-150): asymmetric -5 / +10. -/
def cystsScore (row : RefRow) (ui : UserInput) : ℚ :=
  if valid_user (.vlist (firstOrSentinel (uget ui "Cysts on Imaging"))) then
    if (firstOrSentinel (uget ui "Cysts on Imaging")).headD SENTINEL =
        "negative" then
      if (gl row "Cysts on Imaging").all (fun x => !(x == "negative"))
      then -5 else 0
    else
      if (gl row "Cysts on Imaging").any (fun x => !(x == "negative"))
      then 10 else 0
  else 0

/-- The accumulated score of one reference row against the findings
(the score variable of engine.py lines 65-150, written as the sum of the
per-field increments in source order). -/
def rowScore (row : RefRow) (ui : UserInput) : ℚ :=
  matchIfSetScore 5 "Countries Visited" row ui
  + matchIfSetScore 5 "Anatomy Involvement" row ui
  + vectorScore row ui
  + symptomsScore row ui
  + matchIfSetScore 5 "Duration of Illness" row ui
  + matchIfSetScore 8 "Animal Contact Type" row ui
  + bloodFilmScore row ui
  + matchIfSetScore 2 "Immune Status" row ui
  + lftScore row ui
  + (binaryFields.map (fun f => binaryScore f row ui)).sum
  + cystsScore row ui

/-- Python round-half-to-even of a rational to an integer. -/
def roundHalfEven (q : ℚ) : ℤ :=
  if q - Int.floor q < 1/2 then Int.floor q
  else if q - Int.floor q > 1/2 then Int.floor q + 1
  else if Int.floor q % 2 = 0 then Int.floor q else Int.floor q + 1

/-- round(x, 2) of Python, on exact rationals. -/
def pyRound2 (q : ℚ) : ℚ := ((roundHalfEven (q * 100) : ℚ)) / 100

/-- self.max_possible_score (engine.py lines 26-28): the fixed denominator. -/
def max_possible_score : ℚ := 113

/-- One output record of score_entry (engine.py lines 152-160). -/
structure Scored where
  parasite : String
  group : String
  subtype : String
  score : ℚ
  likelihood : ℚ
  keyTest : String
  ref_row : List (String × String)
deriving DecidableEq

instance : Inhabited Scored := ⟨⟨"", "", "", 0, 0, "", []⟩⟩

/-- Building one output record (engine.py lines 152-160). -/
def mkScored (row : RefRow) (ui : UserInput) : Scored :=
  { parasite := rget row "Parasite"
    group := rget row "Group"
    subtype := rget row "Subtype"
    score := rowScore row ui
    likelihood := pyRound2 (rowScore row ui / max_possible_score * 100)
    keyTest := rget row "Key Test"
    ref_row := row }

/-- The out list built by the row loop (engine.py lines 62-160). -/
def rowScoreds (df : List RefRow) (ui : UserInput) : List Scored :=
  df.map (fun row => mkScored row ui)

/-!
Model of `pd.DataFrame(out).sort_values("Likelihood (%)", ascending=False)`
(engine.py line 162).  pandas sort_values with a single key calls
`nargsort(k, kind="quicksort", ascending=False)`, which (no NaN present)
computes `arange(n)[::-1][argsort(k[::-1], kind="quicksort")][::-1]`:
it reverses values and positions, runs the numpy ascending argsort, and
reverses the result.  numpy argsort with kind="quicksort" is introsort:
while the active range holds more than SMALL_QUICKSORT = 15 + 1 elements it
partitions (median of three, Hoare-style scans over the index array), and
ranges of at most 16 elements are finished by a stable insertion sort that
shifts elements while strictly greater.  For inputs of at most 16 elements
the partition body never runs, so the whole argsort is that stable insertion
sort, rendered below as npInsertionArgsort (insert each position, in order,
in front of the first strictly greater element, which places it after all
earlier equal elements exactly as the shift-while-strictly-greater loop
does).  For larger inputs aquicksortLoop below translates the numpy
partition loop literally (the introsort depth limit and its heapsort
fallback are not modelled; they are unreachable at the depths evaluated
here).
-/

/-- Value at a position of the key column, as the sorts read it. -/
def valAt (vals : List ℚ) (k : ℕ) : ℚ := vals.getD k 0

/-- Comparison used by the argsort: strictly smaller key value. -/
def argLt (vals : List ℚ) (i j : ℕ) : Prop := valAt vals i < valAt vals j

instance (vals : List ℚ) : DecidableRel (argLt vals) := fun i j =>
  inferInstanceAs (Decidable (valAt vals i < valAt vals j))

/-- The numpy insertion argsort (stable, ascending): positions are inserted
in order, each in front of the first position holding a strictly greater
value. -/
def npInsertionArgsort (vals : List ℚ) : List ℕ :=
  (List.range vals.length).foldl
    (fun acc i => List.orderedInsert (argLt vals) i acc) []

/-- Index stored at a position of the index array. -/
def idxAt (t : List ℕ) (k : ℕ) : ℕ := t.getD k 0

/-- Key value reached through the index array. -/
def tval (vals : List ℚ) (t : List ℕ) (k : ℕ) : ℚ := valAt vals (idxAt t k)

/-- Swap of two positions of the index array (INTP_SWAP). -/
def lswap (t : List ℕ) (a b : ℕ) : List ℕ :=
  (t.set a (idxAt t b)).set b (idxAt t a)

/-- do ++pi; while (LT(v[*pi], vp)) of the numpy partition. -/
def scanUp (vals : List ℚ) (t : List ℕ) (vp : ℚ) : ℕ → ℕ → ℕ
  | 0, pi => pi + 1
  | fuel + 1, pi =>
      if tval vals t (pi + 1) < vp then scanUp vals t vp fuel (pi + 1)
      else pi + 1

/-- do --pj; while (LT(vp, v[*pj])) of the numpy partition. -/
def scanDown (vals : List ℚ) (t : List ℕ) (vp : ℚ) : ℕ → ℕ → ℕ
  | 0, pj => pj - 1
  | fuel + 1, pj =>
      if vp < tval vals t (pj - 1) then scanDown vals t vp fuel (pj - 1)
      else pj - 1

/-- The inner swap loop of the numpy partition; returns the updated index
array and the final pi. -/
def partitionScan (vals : List ℚ) (vp : ℚ) :
    ℕ → List ℕ → ℕ → ℕ → (List ℕ × ℕ)
  | 0, t, pi, _ => (t, pi)
  | fuel + 1, t, pi, pj =>
      if scanUp vals t vp t.length pi ≥ scanDown vals t vp t.length pj then
        (t, scanUp vals t vp t.length pi)
      else
        partitionScan vals vp fuel
          (lswap t (scanUp vals t vp t.length pi)
            (scanDown vals t vp t.length pj))
          (scanUp vals t vp t.length pi) (scanDown vals t vp t.length pj)

/-- One shift pass of the numpy insertion sort over a range (moves greater
elements up while vp is strictly smaller); returns the array with the hole
at the returned position. -/
def insShift (vals : List ℚ) (vp : ℚ) (pl : ℕ) :
    ℕ → ℕ → List ℕ → (List ℕ × ℕ)
  | 0, pj, t => (t, pj)
  | fuel + 1, pj, t =>
      if pl < pj && decide (vp < valAt vals (idxAt t (pj - 1))) then
        insShift vals vp pl fuel (pj - 1) (t.set pj (idxAt t (pj - 1)))
      else (t, pj)

/-- The numpy insertion sort over positions pl..pr of the index array. -/
def insertRangeGo (vals : List ℚ) (pl pr : ℕ) : ℕ → ℕ → List ℕ → List ℕ
  | 0, _, t => t
  | fuel + 1, pi, t =>
      if pi ≤ pr then
        insertRangeGo vals pl pr fuel (pi + 1)
          (((insShift vals (valAt vals (idxAt t pi)) pl t.length pi t).1).set
            (insShift vals (valAt vals (idxAt t pi)) pl t.length pi t).2
            (idxAt t pi))
      else t

/-- Insertion sort of the index array over the closed range pl..pr. -/
def insertRange (vals : List ℚ) (t : List ℕ) (pl pr : ℕ) : List ℕ :=
  insertRangeGo vals pl pr (t.length + 1) (pl + 1) t

/-- SMALL_QUICKSORT of numpy npysort. -/
def smallQuicksort : ℕ := 15

/-- The aquicksort main loop of numpy (argsort, kind="quicksort"),
translated step for step: median-of-three pivot, Hoare partition over the
index array, recursion on the smaller side with the larger side pushed on
an explicit stack, and insertion sort for ranges of at most 16 elements. -/
def aquicksortLoop (vals : List ℚ) :
    ℕ → List ℕ → ℕ → ℕ → List (ℕ × ℕ) → List ℕ
  | 0, t, _, _, _ => t
  | fuel + 1, t, pl, pr, stack =>
      if pr - pl > smallQuicksort then
        let pm := pl + (pr - pl) / 2
        let t1 := if tval vals t pm < tval vals t pl then lswap t pm pl else t
        let t2 := if tval vals t1 pr < tval vals t1 pm then lswap t1 pr pm
          else t1
        let t3 := if tval vals t2 pm < tval vals t2 pl then lswap t2 pm pl
          else t2
        let vp := tval vals t3 pm
        let t4 := lswap t3 pm (pr - 1)
        let s := partitionScan vals vp t4.length t4 pl (pr - 1)
        let t5 := lswap s.1 s.2 (pr - 1)
        if s.2 - pl < pr - s.2 then
          aquicksortLoop vals fuel t5 pl (s.2 - 1) ((s.2 + 1, pr) :: stack)
        else
          aquicksortLoop vals fuel t5 (s.2 + 1) pr ((pl, s.2 - 1) :: stack)
      else
        match stack with
        | [] => insertRange vals t pl pr
        | (pl2, pr2) :: rest =>
            aquicksortLoop vals fuel (insertRange vals t pl pr) pl2 pr2 rest

/-- numpy argsort with the default kind="quicksort": for at most 16 elements
the partition loop is skipped and the call is a single stable insertion
sort; otherwise the introsort loop runs. -/
def npArgsortQuick (vals : List ℚ) : List ℕ :=
  if vals.length ≤ 16 then npInsertionArgsort vals
  else aquicksortLoop vals (2 * vals.length + 2) (List.range vals.length) 0
    (vals.length - 1) []

/-- pandas nargsort with ascending=False (no NaN in the key column):
reverse, ascending argsort, compose with the reversed positions, reverse. -/
def nargsortDesc (vals : List ℚ) : List ℕ :=
  ((npArgsortQuick vals.reverse).map
    (fun k => (List.range vals.length).reverse.getD k 0)).reverse

/-- The row permutation applied by sort_values in engine.py line 162. -/
def sortPerm (df : List RefRow) (ui : UserInput) : List ℕ :=
  nargsortDesc ((rowScoreds df ui).map (fun s => s.likelihood))

/-- score_entry (engine.py lines 57-163).  On an empty reference table the
out list is empty, pd.DataFrame(out) has no columns at all, and
sort_values("Likelihood (%)") raises KeyError: this is modelled as none.
Otherwise the scored rows are returned in the order of the sort_values
permutation (reset_index(drop=True) does not change the row order). -/
def score_entry (df : List RefRow) (ui : UserInput) :
    Option (List Scored) :=
  if (rowScoreds df ui).isEmpty then none
  else some ((sortPerm df ui).map (fun i => (rowScoreds df ui).getD i default))

/-!
compute_user_confidence (engine.py lines 167-277).  The closure gl of that
function reads the field from the result row when present, else from the
stored ref_row; both give the reference row itself, which the model passes
directly.  Each per-field block contributes a pair: the score increment and
the max_sc increment.
-/

/-- The match closure of compute_user_confidence (engine.py lines 176-180):
like match_any, but placeholder tokens are removed from the user side, and
the db token list is used as produced by _split. -/
def confMatch (row : RefRow) (ui : UserInput) (f : String) : Bool :=
  ((((pyIter (uget ui f)).filter (fun x => !(pyStrip x == ""))).map
      pyLower).filter (fun x => !(sentinels.contains x))).any
    (fun x => (gl row f).contains x)

/-- A match-if-set block of compute_user_confidence (engine.py lines
185-195, 214-224, 238-242): (score increment, max_sc increment). -/
def confPair (w : ℚ) (f : String) (row : RefRow) (ui : UserInput) : ℚ × ℚ :=
  if valid_user (uget ui f) then
    (if confMatch row ui f then w else 0, w)
  else (0, 0)

/-- Vector block of compute_user_confidence (engine.py lines 197-204). -/
def confVector (row : RefRow) (ui : UserInput) : ℚ × ℚ :=
  if valid_user (uget ui "Vector Exposure") then
    (if (pyIter (uget ui "Vector Exposure")).map pyLower =
        ["other(including unknown)"] then 8
     else if confMatch row ui "Vector Exposure" then 8
     else 0, 8)
  else (0, 0)

/-- Symptoms block of compute_user_confidence (engine.py lines 206-212):
the denominator is the number of non-blank entries. -/
def confSymptoms (row : RefRow) (ui : UserInput) : ℚ × ℚ :=
  if valid_user (uget ui "Symptoms") then
    ((10 / max 1
        ((((pyIter (uget ui "Symptoms")).filter
            (fun s => !(pyStrip s == ""))).length : ℚ))) *
      ((((pyIter (uget ui "Symptoms")).filter (fun s => !(pyStrip s == ""))).filter
          (fun s => (gl row "Symptoms").contains (pyLower s))).length : ℚ), 10)
  else (0, 0)

/-- Blood Film block of compute_user_confidence (engine.py lines 226-236). -/
def confBloodFilm (row : RefRow) (ui : UserInput) : ℚ × ℚ :=
  if valid_user (.vlist (firstOrSentinel (uget ui "Blood Film Result"))) then
    (if (firstOrSentinel (uget ui "Blood Film Result")).headD SENTINEL =
        "negative" then
       if (gl row "Blood Film Result").all (fun x => !(x == "negative"))
       then -10 else 0
     else
       if (gl row "Blood Film Result").any (fun x => !(x == "negative"))
       then 15 else 0, 15)
  else (0, 0)

/-- LFT block of compute_user_confidence (engine.py lines 244-250). -/
def confLft (row : RefRow) (ui : UserInput) : ℚ × ℚ :=
  if valid_user (.vlist (firstOrSentinel (uget ui "Liver Function Tests")))
  then
    (if (gl row "Liver Function Tests").contains "variable" ||
        (gl row "Liver Function Tests").contains
          ((firstOrSentinel (uget ui "Liver Function Tests")).headD SENTINEL)
     then 5 else 0, 5)
  else (0, 0)

/-- One binary block of compute_user_confidence (engine.py lines 252-263). -/
def confBinary (f : String) (row : RefRow) (ui : UserInput) : ℚ × ℚ :=
  if valid_user (.vlist (firstOrSentinel (uget ui f))) then
    (if (gl row f).contains "variable" ||
        (gl row f).contains ((firstOrSentinel (uget ui f)).headD SENTINEL)
     then 5 else 0, 5)
  else (0, 0)

/-- Cysts block of compute_user_confidence (engine.py lines 265-275). -/
def confCysts (row : RefRow) (ui : UserInput) : ℚ × ℚ :=
  if valid_user (.vlist (firstOrSentinel (uget ui "Cysts on Imaging"))) then
    (if (firstOrSentinel (uget ui "Cysts on Imaging")).headD SENTINEL =
        "negative" then
       if (gl row "Cysts on Imaging").all (fun x => !(x == "negative"))
       then -5 else 0
     else
       if (gl row "Cysts on Imaging").any (fun x => !(x == "negative"))
       then 10 else 0, 10)
  else (0, 0)

/-- The accumulated (score, max_sc) pair of compute_user_confidence, summed
in source order. -/
def confTotals (row : RefRow) (ui : UserInput) : ℚ × ℚ :=
  confPair 5 "Countries Visited" row ui
  + confPair 5 "Anatomy Involvement" row ui
  + confVector row ui
  + confSymptoms row ui
  + confPair 5 "Duration of Illness" row ui
  + confPair 8 "Animal Contact Type" row ui
  + confBloodFilm row ui
  + confPair 2 "Immune Status" row ui
  + confLft row ui
  + (binaryFields.map (fun f => confBinary f row ui)).sum
  + confCysts row ui

/-- compute_user_confidence (engine.py lines 167-277): score normalised to
the populated fields, 0 when nothing is populated. -/
def compute_user_confidence (ui : UserInput) (row : RefRow) : ℚ :=
  if (confTotals row ui).2 > 0
  then (confTotals row ui).1 / (confTotals row ui).2 * 100
  else 0

/-!
Predicates used to state the claims.
-/

/-- Every token of the value is already trimmed and lowercase, non-empty,
and none of the placeholder values (the normal form the app sends). -/
def cleanVal (v : PyVal) : Bool :=
  (pyIter v).all (fun t => (pyStrip t == t) &&
    ((pyLower t == t) && (!(t == "") && !(sentinels.contains t))))

/-- Every field of the findings record holds only clean tokens. -/
def cleanUI (ui : UserInput) : Bool :=
  ui.all (fun p => cleanVal p.2)

/-- Every token _split produces from this cell is already trimmed, lowered
and non-blank (true of all strings, recorded as a checkable hypothesis). -/
def cleanRefStr (s : String) : Bool :=
  (pySplit s).all (fun t => (pyStrip t == t) && ((pyLower t == t) && !(t == "")))

/-- Every cell of the reference row is clean in the sense of cleanRefStr. -/
def cleanRow (row : RefRow) : Bool :=
  row.all (fun p => cleanRefStr p.2)

/-- Every token of the list is, lowercased, one of the placeholder values. -/
def sentinelOnlyList (l : List String) : Bool :=
  l.all (fun t => sentinels.contains (pyLower t))

/-!
Helper lemmas.
-/

theorem all_not_beq_iff (l : List String) (a : String) :
    (l.all (fun x => !(x == a)) = true) ↔ a ∉ l := by
  simp only [List.all_eq_true, Bool.not_eq_true', beq_eq_false_iff_ne, ne_eq]
  constructor
  · intro h hmem
    exact h a hmem rfl
  · intro h x hx he
    exact h (he ▸ hx)

theorem any_not_beq_iff (l : List String) (a : String) :
    (l.any (fun x => !(x == a)) = true) ↔ ∃ x ∈ l, x ≠ a := by
  simp only [List.any_eq_true, Bool.not_eq_true', beq_eq_false_iff_ne, ne_eq]

theorem valid_user_length_pos (v : PyVal) (h : valid_user v = true) :
    1 ≤ (pyIter v).length := by
  cases v with
  | vstr s =>
      cases hs : s.toList with
      | nil =>
          have hempty : s = "" := by
            cases s with
            | mk data =>
                simp only [String.toList] at hs
                simp [hs]
          rw [hempty] at h
          exact absurd h (by decide)
      | cons c cs =>
          show 1 ≤ (s.toList.map Char.toString).length
          rw [hs]
          simp
  | vlist l =>
      cases l with
      | nil => exact absurd h (by decide)
      | cons a as => simp [pyIter]

/-!
Claim theorems.
-/

/-- Claim C2 (confirmed): with the Blood Film Result finding set, the field
adds -10 exactly when the finding token is "negative" and the reference
token set contains no "negative"; it adds +15 exactly when the finding
token is another value and the reference set has at least one token other
than "negative"; with the finding unset it contributes 0. -/
theorem C2_blood_film_rule (row : RefRow) (ui : UserInput) :
    (valid_user (PyVal.vlist (firstOrSentinel (uget ui "Blood Film Result")))
        = true →
      ((firstOrSentinel (uget ui "Blood Film Result")).headD SENTINEL
          = "negative" →
        bloodFilmScore row ui =
          (if "negative" ∈ gl row "Blood Film Result" then 0 else -10)) ∧
      ((firstOrSentinel (uget ui "Blood Film Result")).headD SENTINEL
          ≠ "negative" →
        bloodFilmScore row ui =
          (if ∃ x ∈ gl row "Blood Film Result", x ≠ "negative"
           then 15 else 0))) ∧
    (valid_user (PyVal.vlist (firstOrSentinel (uget ui "Blood Film Result")))
        = false →
      bloodFilmScore row ui = 0) := by
  refine ⟨fun hv => ⟨fun hneg => ?_, fun hpos => ?_⟩, fun hv => ?_⟩
  · simp only [List.headD_eq_head?_getD] at hneg
    by_cases h : "negative" ∈ gl row "Blood Film Result"
    · have hall : ¬ ((gl row "Blood Film Result").all
          (fun x => !(x == "negative")) = true) := by
        rw [all_not_beq_iff]
        exact fun hc => hc h
      simp [bloodFilmScore, hv, hneg, hall, h]
    · have hall : (gl row "Blood Film Result").all
          (fun x => !(x == "negative")) = true := by
        rw [all_not_beq_iff]
        exact h
      simp [bloodFilmScore, hv, hneg, hall, h]
  · simp only [List.headD_eq_head?_getD] at hpos
    by_cases h : ∃ x ∈ gl row "Blood Film Result", x ≠ "negative"
    · have hany : (gl row "Blood Film Result").any
          (fun x => !(x == "negative")) = true := (any_not_beq_iff _ _).2 h
      simp [bloodFilmScore, hv, hpos, hany, h]
    · have hany : ¬ ((gl row "Blood Film Result").any
          (fun x => !(x == "negative")) = true) := by
        rw [any_not_beq_iff]
        exact h
      simp [bloodFilmScore, hv, hpos, hany, h]
  · simp [bloodFilmScore, hv]

/-- Witness for C2 at the concrete inputs named by the spec. -/
theorem C2_blood_film_rule_witness :
    bloodFilmScore [("Blood Film Result", "Positive")]
      [("Blood Film Result", PyVal.vlist ["Negative"])] = -10 ∧
    bloodFilmScore [("Blood Film Result", "Negative")]
      [("Blood Film Result", PyVal.vlist ["Positive"])] = 0 ∧
    bloodFilmScore [("Blood Film Result", "Positive;Negative")]
      [("Blood Film Result", PyVal.vlist ["Positive"])] = 15 ∧
    bloodFilmScore [("Blood Film Result", "Positive")] [] = 0 := by
  refine ⟨?_, ?_, ?_, ?_⟩
  · rw [((C2_blood_film_rule [("Blood Film Result", "Positive")]
      [("Blood Film Result", PyVal.vlist ["Negative"])]).1 (by decide)).1
      (by decide)]
    decide
  · rw [((C2_blood_film_rule [("Blood Film Result", "Negative")]
      [("Blood Film Result", PyVal.vlist ["Positive"])]).1 (by decide)).2
      (by decide)]
    decide
  · rw [((C2_blood_film_rule [("Blood Film Result", "Positive;Negative")]
      [("Blood Film Result", PyVal.vlist ["Positive"])]).1 (by decide)).2
      (by decide)]
    decide
  · exact (C2_blood_film_rule [("Blood Film Result", "Positive")] []).2
      (by decide)

/-- Counterexample to claim C3 as stated: the non-empty Symptoms finding
list consisting of the single token "unknown", against a reference whose
Symptoms token set contains "unknown", would have to earn
(10 / 1) x 1 = 10 by the claimed formula, but score_entry treats the list
as unset and adds 0. -/
theorem C3_counterexample :
    symptomsScore [("Symptoms", "Unknown")]
      [("Symptoms", PyVal.vlist ["unknown"])] = 0 ∧
    (10 / (((pyIter (uget [("Symptoms", PyVal.vlist ["unknown"])]
        "Symptoms")).length : ℚ))) *
      (((pyIter (uget [("Symptoms", PyVal.vlist ["unknown"])]
          "Symptoms")).filter
          (fun s => (gl [("Symptoms", "Unknown")] "Symptoms").contains
            (pyLower s))).length : ℚ) = 10 := by
  constructor
  · decide
  · rw [show ((pyIter (uget [("Symptoms", PyVal.vlist ["unknown"])]
          "Symptoms")).filter
          (fun s => (gl [("Symptoms", "Unknown")] "Symptoms").contains
            (pyLower s))).length = 1 from rfl,
      show (pyIter (uget [("Symptoms", PyVal.vlist ["unknown"])]
        "Symptoms")).length = 1 from rfl]
    norm_num

/-- Claim C3 (amended): for every Symptoms finding list that passes the
_valid_user test (non-empty with at least one non-placeholder token) the
credit is (10/N) x (number of finding tokens whose lowercase form is in the
reference token set); a finding that fails the test contributes 0. -/
theorem C3_symptoms_proportional (row : RefRow) (ui : UserInput) :
    (valid_user (uget ui "Symptoms") = true →
      symptomsScore row ui =
        (10 / (((pyIter (uget ui "Symptoms")).length : ℚ))) *
          (((pyIter (uget ui "Symptoms")).filter
              (fun s => (gl row "Symptoms").contains (pyLower s))).length : ℚ)) ∧
    (valid_user (uget ui "Symptoms") = false → symptomsScore row ui = 0) := by
  constructor
  · intro hv
    have hlen := valid_user_length_pos _ hv
    have hmax : max (1 : ℚ) (((pyIter (uget ui "Symptoms")).length : ℚ)) =
        (((pyIter (uget ui "Symptoms")).length : ℚ)) := by
      apply max_eq_right
      exact_mod_cast hlen
    simp [symptomsScore, hv, hmax]
  · intro hv
    simp [symptomsScore, hv]

/-- Witness for C3 at the concrete example of the spec: finding
(fever, rash) against reference (fever) earns 5. -/
theorem C3_symptoms_proportional_witness :
    symptomsScore [("Symptoms", "fever")]
      [("Symptoms", PyVal.vlist ["fever", "rash"])] =
      (10 / (((pyIter (uget [("Symptoms", PyVal.vlist ["fever", "rash"])]
          "Symptoms")).length : ℚ))) *
        (((pyIter (uget [("Symptoms", PyVal.vlist ["fever", "rash"])]
            "Symptoms")).filter
            (fun s => (gl [("Symptoms", "fever")] "Symptoms").contains
              (pyLower s))).length : ℚ) ∧
    symptomsScore [("Symptoms", "fever")]
      [("Symptoms", PyVal.vlist ["fever", "rash"])] = 5 := by
  constructor
  · exact (C3_symptoms_proportional [("Symptoms", "fever")]
      [("Symptoms", PyVal.vlist ["fever", "rash"])]).1 (by decide)
  · rw [(C3_symptoms_proportional [("Symptoms", "fever")]
      [("Symptoms", PyVal.vlist ["fever", "rash"])]).1 (by decide)]
    rw [show ((pyIter (uget [("Symptoms", PyVal.vlist ["fever", "rash"])]
          "Symptoms")).filter
          (fun s => (gl [("Symptoms", "fever")] "Symptoms").contains
            (pyLower s))).length = 1 from rfl,
      show (pyIter (uget [("Symptoms", PyVal.vlist ["fever", "rash"])]
        "Symptoms")).length = 2 from rfl]
    norm_num

/-- Claim C4 (confirmed): a Vector Exposure finding that is exactly the
single token "other(including unknown)" (up to case) earns the full 8
points for every reference row. -/
theorem C4_vector_other_full_credit (row : RefRow) (ui : UserInput)
    (t : String) (h1 : uget ui "Vector Exposure" = PyVal.vlist [t])
    (h2 : pyLower t = "other(including unknown)") (h3 : pyStrip t = t) :
    vectorScore row ui = 8 := by
  have hne : (pyStrip t == "") = false := by
    rw [h3]
    rw [beq_eq_false_iff_ne]
    intro he
    rw [he] at h2
    exact absurd h2 (by decide)
  have hfil : [t].filter (fun x => !(pyStrip x == "")) = [t] := by
    simp [List.filter, hne]
  have hval : valid_user (uget ui "Vector Exposure") = true := by
    rw [h1]
    show (([t].filter (fun x => !(pyStrip x == ""))).map pyLower).any
      (fun x => !(sentinels.contains x)) = true
    rw [hfil]
    simp [h2]
    decide
  have hvec : (pyIter (uget ui "Vector Exposure")).map pyLower =
      ["other(including unknown)"] := by
    rw [h1]
    show [t].map pyLower = ["other(including unknown)"]
    simp [h2]
  simp [vectorScore, hval, hvec]

/-- Witness for C4: the mixed-case single token against an arbitrary
reference row earns 8. -/
theorem C4_vector_other_full_credit_witness :
    vectorScore [("Vector Exposure", "ticks")]
      [("Vector Exposure", PyVal.vlist ["Other(Including Unknown)"])] = 8 :=
  C4_vector_other_full_credit [("Vector Exposure", "ticks")]
    [("Vector Exposure", PyVal.vlist ["Other(Including Unknown)"])]
    "Other(Including Unknown)" (by decide) (by decide) (by decide)

/-- Claim C7: on the empty reference table score_entry fails (the model
returns none where the code raises KeyError, because pd.DataFrame of the
empty out list has no Likelihood column to sort); with no populated
findings fields compute_user_confidence returns 0 without dividing. -/
theorem C7_empty_reference_behavior :
    (∀ ui : UserInput, score_entry [] ui = none) ∧
    (∀ row : RefRow, compute_user_confidence [] row = 0) := by
  constructor
  · intro ui
    simp [score_entry, rowScoreds]
  · intro row
    have h : confTotals row [] = (0, 0) := by
      simp +decide [confTotals, confPair, confVector, confSymptoms,
        confBloodFilm, confLft, confBinary, confCysts, binaryFields, uget,
        valid_user, firstOrSentinel, pyIter, confMatch, Prod.mk_add_mk]
    simp [compute_user_confidence, h]

/-- Counterexample to claim C8 as stated: a bare string "negative" for
Blood Film Result against reference token set (positive) scores +15, while
the properly wrapped one-element list scores -10, so the bare value is not
normalized to the one-element list. -/
theorem C8_counterexample :
    rowScore [("Blood Film Result", "Positive")]
      [("Blood Film Result", PyVal.vstr "negative")] = 15 ∧
    rowScore [("Blood Film Result", "Positive")]
      [("Blood Film Result", PyVal.vlist ["negative"])] = -10 := by
  constructor
  · simp +decide [rowScore, matchIfSetScore, vectorScore, symptomsScore,
      bloodFilmScore, lftScore, binaryScore, cystsScore, binaryFields]
  · simp +decide [rowScore, matchIfSetScore, vectorScore, symptomsScore,
      bloodFilmScore, lftScore, binaryScore, cystsScore, binaryFields]

/-- Claim C8 (amended): score_entry does not fail on a bare string where a
list is expected, but it does not wrap it either: the string is iterated
character by character, so for the Blood Film Result field a bare string
behaves exactly like the list of its one-character substrings, which in
general scores differently from the one-element wrapped list. -/
theorem C8_bare_string_char_iteration (s : String) (row : RefRow) :
    rowScore row [("Blood Film Result", PyVal.vstr s)] =
      rowScore row
        [("Blood Film Result", PyVal.vlist (s.toList.map Char.toString))] :=
  rfl

/-- Claim C10 (confirmed): against a reference row whose Blood Film Result
token set is empty, a set "negative" finding is penalised -10 and any other
set finding gets 0; analogously -5 / 0 for Cysts on Imaging. -/
theorem C10_empty_reference_asymmetric (row : RefRow) (ui : UserInput) :
    (gl row "Blood Film Result" = [] →
      valid_user (PyVal.vlist (firstOrSentinel (uget ui "Blood Film Result")))
          = true →
      (((firstOrSentinel (uget ui "Blood Film Result")).headD SENTINEL
          = "negative" → bloodFilmScore row ui = -10) ∧
       ((firstOrSentinel (uget ui "Blood Film Result")).headD SENTINEL
          ≠ "negative" → bloodFilmScore row ui = 0))) ∧
    (gl row "Cysts on Imaging" = [] →
      valid_user (PyVal.vlist (firstOrSentinel (uget ui "Cysts on Imaging")))
          = true →
      (((firstOrSentinel (uget ui "Cysts on Imaging")).headD SENTINEL
          = "negative" → cystsScore row ui = -5) ∧
       ((firstOrSentinel (uget ui "Cysts on Imaging")).headD SENTINEL
          ≠ "negative" → cystsScore row ui = 0))) := by
  constructor
  · intro hdb hv
    constructor
    · intro hneg
      simp only [List.headD_eq_head?_getD] at hneg
      simp [bloodFilmScore, hv, hneg, hdb]
    · intro hpos
      simp only [List.headD_eq_head?_getD] at hpos
      simp [bloodFilmScore, hv, hpos, hdb]
  · intro hdb hv
    constructor
    · intro hneg
      simp only [List.headD_eq_head?_getD] at hneg
      simp [cystsScore, hv, hneg, hdb]
    · intro hpos
      simp only [List.headD_eq_head?_getD] at hpos
      simp [cystsScore, hv, hpos, hdb]

theorem sentinelOnly_valid_false (l : List String)
    (h : sentinelOnlyList l = true) : valid_user (PyVal.vlist l) = false := by
  have hall := List.all_eq_true.mp h
  show ((l.filter (fun x => !(pyStrip x == ""))).map pyLower).any
      (fun x => !(sentinels.contains x)) = false
  rw [List.any_eq_false]
  intro x hx
  rcases List.mem_map.mp hx with ⟨t, ht, rfl⟩
  have ht2 : t ∈ l := (List.mem_filter.mp ht).1
  have := hall t ht2
  simpa using this

theorem sentinel_singleton_invalid (x : String)
    (h : sentinels.contains x = true) :
    valid_user (PyVal.vlist [x]) = false := by
  have hx : x ∈ sentinels := by simpa using h
  simp only [sentinels, SENTINEL, List.mem_cons, List.not_mem_nil,
    or_false] at hx
  rcases hx with rfl | rfl | rfl | rfl | rfl <;> decide

theorem sentinelOnly_first_invalid (l : List String)
    (h : sentinelOnlyList l = true) :
    valid_user (PyVal.vlist (firstOrSentinel (PyVal.vlist l))) = false := by
  cases l with
  | nil => decide
  | cons t ts =>
      have ht : sentinels.contains (pyLower t) = true := by
        have := List.all_eq_true.mp h t (by simp)
        simpa using this
      have hfs : firstOrSentinel (PyVal.vlist (t :: ts)) = [pyLower t] := by
        simp [firstOrSentinel, pyIter]
      rw [hfs]
      exact sentinel_singleton_invalid _ ht

/-- Counterexample to claim C9 as stated: the finding token "unknown",
supplied alongside a meaningful token, does earn credit when the reference
token set contains "unknown": Countries finding (unknown, egypt) against
reference (Unknown) scores 5, and removing the "unknown" token drops the
credit to 0. -/
theorem C9_counterexample :
    matchIfSetScore 5 "Countries Visited" [("Countries Visited", "Unknown")]
      [("Countries Visited", PyVal.vlist ["unknown", "egypt"])] = 5 ∧
    matchIfSetScore 5 "Countries Visited" [("Countries Visited", "Unknown")]
      [("Countries Visited", PyVal.vlist ["egypt"])] = 0 := by
  constructor
  · decide
  · decide

/-- Claim C9 (amended): a finding list whose tokens are all placeholder
values (unknown, choose…, choose..., __unset__, empty; case-insensitive) is
treated as unset by every matchable-field rule and contributes 0; however a
placeholder token listed alongside a meaningful token still participates in
matching and can earn the field credit. -/
theorem C9_sentinel_only_unset (row : RefRow) (ui : UserInput) :
    (∀ (w : ℚ) (f : String) (l : List String), uget ui f = PyVal.vlist l →
        sentinelOnlyList l = true → matchIfSetScore w f row ui = 0) ∧
    (∀ l : List String, uget ui "Vector Exposure" = PyVal.vlist l →
        sentinelOnlyList l = true → vectorScore row ui = 0) ∧
    (∀ l : List String, uget ui "Symptoms" = PyVal.vlist l →
        sentinelOnlyList l = true → symptomsScore row ui = 0) ∧
    (∀ l : List String, uget ui "Blood Film Result" = PyVal.vlist l →
        sentinelOnlyList l = true → bloodFilmScore row ui = 0) ∧
    (∀ l : List String, uget ui "Liver Function Tests" = PyVal.vlist l →
        sentinelOnlyList l = true → lftScore row ui = 0) ∧
    (∀ (f : String) (l : List String), uget ui f = PyVal.vlist l →
        sentinelOnlyList l = true → binaryScore f row ui = 0) ∧
    (∀ l : List String, uget ui "Cysts on Imaging" = PyVal.vlist l →
        sentinelOnlyList l = true → cystsScore row ui = 0) := by
  refine ⟨fun w f l h1 h2 => ?_, fun l h1 h2 => ?_, fun l h1 h2 => ?_,
    fun l h1 h2 => ?_, fun l h1 h2 => ?_, fun f l h1 h2 => ?_,
    fun l h1 h2 => ?_⟩
  · simp [matchIfSetScore, h1, sentinelOnly_valid_false l h2]
  · simp [vectorScore, h1, sentinelOnly_valid_false l h2]
  · simp [symptomsScore, h1, sentinelOnly_valid_false l h2]
  · simp [bloodFilmScore, h1, sentinelOnly_first_invalid l h2]
  · simp [lftScore, h1, sentinelOnly_first_invalid l h2]
  · simp [binaryScore, h1, sentinelOnly_first_invalid l h2]
  · simp [cystsScore, h1, sentinelOnly_first_invalid l h2]

/-- Witness for C9: placeholder-only findings contribute 0 on several
fields, including one where the reference set contains "unknown". -/
theorem C9_sentinel_only_unset_witness :
    matchIfSetScore 5 "Countries Visited" [("Countries Visited", "Unknown")]
      [("Countries Visited", PyVal.vlist ["unknown"])] = 0 ∧
    bloodFilmScore [("Blood Film Result", "Positive")]
      [("Blood Film Result", PyVal.vlist ["Unknown"])] = 0 ∧
    symptomsScore [("Symptoms", "fever")]
      [("Symptoms", PyVal.vlist ["choose...", ""])] = 0 := by
  refine ⟨?_, ?_, ?_⟩
  · exact (C9_sentinel_only_unset [("Countries Visited", "Unknown")]
      [("Countries Visited", PyVal.vlist ["unknown"])]).1 5
      "Countries Visited" ["unknown"] (by decide) (by decide)
  · exact (C9_sentinel_only_unset [("Blood Film Result", "Positive")]
      [("Blood Film Result", PyVal.vlist ["Unknown"])]).2.2.2.1
      ["Unknown"] (by decide) (by decide)
  · exact (C9_sentinel_only_unset [("Symptoms", "fever")]
      [("Symptoms", PyVal.vlist ["choose...", ""])]).2.2.1
      ["choose...", ""] (by decide) (by decide)

theorem likelihood_formula_of_mem (df : List RefRow) (ui : UserInput)
    (s : Scored) (hs : s ∈ rowScoreds df ui) :
    s.likelihood = pyRound2 (s.score / 113 * 100) := by
  rcases List.mem_map.mp hs with ⟨row, hrow, rfl⟩
  simp [mkScored, max_possible_score]

theorem default_likelihood_formula :
    (default : Scored).likelihood =
      pyRound2 ((default : Scored).score / 113 * 100) := by
  show (0 : ℚ) = pyRound2 (0 / 113 * 100)
  norm_num [pyRound2, roundHalfEven]

/-- Claim C5 (confirmed): every candidate returned by score_entry carries
Likelihood = round2((score / 113) x 100) with the denominator the fixed
constant 113, which equals the sum of all per-field weights
5+5+8+10+5+8+15+2+5+(8 binary x 5)+10 and is not reduced for skipped
fields. -/
theorem C5_likelihood_normalization (df : List RefRow) (ui : UserInput)
    (l : List Scored) (hl : score_entry df ui = some l) (s : Scored)
    (hs : s ∈ l) :
    s.likelihood = pyRound2 (s.score / 113 * 100) ∧
    max_possible_score = 113 ∧
    (113 : ℚ) = 5 + 5 + 8 + 10 + 5 + 8 + 15 + 2 + 5 + 5 * 8 + 10 := by
  refine ⟨?_, rfl, by norm_num⟩
  rw [score_entry] at hl
  by_cases he : (rowScoreds df ui).isEmpty
  · rw [if_pos he] at hl
    exact Option.noConfusion hl
  · rw [if_neg he] at hl
    have hl2 := Option.some.inj hl
    rw [← hl2] at hs
    rcases List.mem_map.mp hs with ⟨i, hi, hgd⟩
    by_cases hlt : i < (rowScoreds df ui).length
    · have hmem : (rowScoreds df ui).getD i default ∈ rowScoreds df ui := by
        rw [List.getD_eq_getElem?_getD, List.getElem?_eq_getElem hlt]
        exact List.getElem_mem hlt
      rw [hgd] at hmem
      exact likelihood_formula_of_mem df ui s hmem
    · have hd : (rowScoreds df ui).getD i default = default := by
        rw [List.getD_eq_getElem?_getD,
          List.getElem?_eq_none (Nat.le_of_not_lt hlt)]
        rfl
      rw [hd] at hgd
      rw [← hgd]
      exact default_likelihood_formula

theorem rowScore_nil (row : RefRow) : rowScore row [] = 0 := by
  simp +decide [rowScore, matchIfSetScore, vectorScore, symptomsScore,
    bloodFilmScore, lftScore, binaryScore, cystsScore, binaryFields, uget,
    valid_user, firstOrSentinel, pyIter]

theorem mkScored_nil (row : RefRow) : mkScored row [] =
    { parasite := rget row "Parasite", group := rget row "Group",
      subtype := rget row "Subtype", score := 0, likelihood := 0,
      keyTest := rget row "Key Test", ref_row := row } := by
  have h0 : pyRound2 (0 : ℚ) = 0 := by
    norm_num [pyRound2, roundHalfEven]
  simp [mkScored, rowScore_nil, h0, max_possible_score]

theorem score_entry_singleton_nil :
    score_entry [[("Parasite", "X")]] [] =
      some [⟨"X", "", "", 0, 0, "", [("Parasite", "X")]⟩] := by
  have hout : rowScoreds [[("Parasite", "X")]] [] =
      [⟨"X", "", "", 0, 0, "", [("Parasite", "X")]⟩] := by
    rw [rowScoreds, List.map_cons, List.map_nil, mkScored_nil]
    decide
  rw [score_entry, sortPerm, hout]
  decide

/-- Witness for C5 at a one-row table with empty findings. -/
theorem C5_likelihood_normalization_witness :
    (⟨"X", "", "", 0, 0, "", [("Parasite", "X")]⟩ : Scored).likelihood =
      pyRound2 ((⟨"X", "", "", 0, 0, "",
        [("Parasite", "X")]⟩ : Scored).score / 113 * 100) ∧
    max_possible_score = 113 ∧
    (113 : ℚ) = 5 + 5 + 8 + 10 + 5 + 8 + 15 + 2 + 5 + 5 * 8 + 10 :=
  C5_likelihood_normalization [[("Parasite", "X")]] [] _
    score_entry_singleton_nil _ (List.mem_singleton.mpr rfl)

/-- Witness for C10: a row without the two columns, probed with negative
and positive findings. -/
theorem C10_empty_reference_asymmetric_witness :
    bloodFilmScore [("Parasite", "X")]
      [("Blood Film Result", PyVal.vlist ["negative"])] = -10 ∧
    bloodFilmScore [("Parasite", "X")]
      [("Blood Film Result", PyVal.vlist ["positive"])] = 0 ∧
    cystsScore [("Parasite", "X")]
      [("Cysts on Imaging", PyVal.vlist ["negative"])] = -5 ∧
    cystsScore [("Parasite", "X")]
      [("Cysts on Imaging", PyVal.vlist ["positive"])] = 0 := by
  refine ⟨?_, ?_, ?_, ?_⟩
  · exact ((C10_empty_reference_asymmetric [("Parasite", "X")]
      [("Blood Film Result", PyVal.vlist ["negative"])]).1 (by decide)
      (by decide)).1 (by decide)
  · exact ((C10_empty_reference_asymmetric [("Parasite", "X")]
      [("Blood Film Result", PyVal.vlist ["positive"])]).1 (by decide)
      (by decide)).2 (by decide)
  · exact ((C10_empty_reference_asymmetric [("Parasite", "X")]
      [("Cysts on Imaging", PyVal.vlist ["negative"])]).2 (by decide)
      (by decide)).1 (by decide)
  · exact ((C10_empty_reference_asymmetric [("Parasite", "X")]
      [("Cysts on Imaging", PyVal.vlist ["positive"])]).2 (by decide)
      (by decide)).2 (by decide)

theorem all_lookup {α β : Type} [BEq α] (p : β → Bool) (l : List (α × β))
    (hl : l.all (fun q => p q.2) = true) (k : α) (b : β)
    (hb : List.lookup k l = some b) : p b = true := by
  induction l with
  | nil => simp at hb
  | cons a t ih =>
      obtain ⟨k1, v1⟩ := a
      rw [List.all_cons, Bool.and_eq_true] at hl
      have h1 := hl.1
      have h2 := hl.2
      cases hk : (k == k1) with
      | true =>
          simp only [List.lookup, hk] at hb
          cases hb
          exact h1
      | false =>
          simp only [List.lookup, hk] at hb
          exact ih h2 hb

theorem cleanVal_spec (v : PyVal) (h : cleanVal v = true) :
    ∀ t ∈ pyIter v, pyStrip t = t ∧ pyLower t = t ∧ t ≠ "" ∧
      sentinels.contains t = false := by
  intro t ht
  have := List.all_eq_true.mp h t ht
  simp only [Bool.and_eq_true, beq_iff_eq, Bool.not_eq_true',
    beq_eq_false_iff_ne, ne_eq] at this
  exact ⟨this.1, this.2.1, this.2.2.1, this.2.2.2⟩

theorem uget_clean (ui : UserInput) (hui : cleanUI ui = true) (f : String) :
    cleanVal (uget ui f) = true := by
  rw [uget]
  cases hb : List.lookup f ui with
  | none => rfl
  | some v => exact all_lookup cleanVal ui hui f v hb

theorem gl_clean (row : RefRow) (hrow : cleanRow row = true) (f : String) :
    ∀ t ∈ gl row f, pyStrip t = t ∧ pyLower t = t ∧ t ≠ "" := by
  intro t ht
  have hstr : cleanRefStr (rget row f) = true := by
    rw [rget]
    cases hb : List.lookup f row with
    | none => rfl
    | some v => exact all_lookup cleanRefStr row hrow f v hb
  have := List.all_eq_true.mp hstr t ht
  simp only [Bool.and_eq_true, beq_iff_eq, Bool.not_eq_true',
    beq_eq_false_iff_ne, ne_eq] at this
  exact ⟨this.1, this.2.1, this.2.2⟩

theorem clean_filter_blank (u : List String)
    (h : ∀ t ∈ u, pyStrip t = t ∧ t ≠ "") :
    u.filter (fun x => !(pyStrip x == "")) = u :=
  List.filter_eq_self.mpr (fun x hx => by simp [(h x hx).1, (h x hx).2])

theorem clean_map_lower (u : List String) (h : ∀ t ∈ u, pyLower t = t) :
    u.map pyLower = u := by
  rw [List.map_congr_left h]
  simp

theorem clean_filter_sentinels (u : List String)
    (h : ∀ t ∈ u, sentinels.contains t = false) :
    u.filter (fun x => !(sentinels.contains x)) = u :=
  List.filter_eq_self.mpr (fun x hx => by rw [h x hx]; rfl)

theorem match_any_eq_confMatch (row : RefRow) (ui : UserInput) (f : String)
    (hui : cleanVal (uget ui f) = true) (hrow : cleanRow row = true) :
    match_any (pyIter (uget ui f)) (gl row f) = confMatch row ui f := by
  have hu := cleanVal_spec _ hui
  have hdb := gl_clean row hrow f
  have e1 : (pyIter (uget ui f)).filter (fun x => !(pyStrip x == ""))
      = pyIter (uget ui f) :=
    clean_filter_blank _ (fun t ht => ⟨(hu t ht).1, (hu t ht).2.2.1⟩)
  have e2 : (gl row f).filter (fun y => !(pyStrip y == "")) = gl row f :=
    clean_filter_blank _ (fun t ht => ⟨(hdb t ht).1, (hdb t ht).2.2⟩)
  have e3 : (pyIter (uget ui f)).map pyLower = pyIter (uget ui f) :=
    clean_map_lower _ (fun t ht => (hu t ht).2.1)
  have e4 : (gl row f).map pyLower = gl row f :=
    clean_map_lower _ (fun t ht => (hdb t ht).2.1)
  have e5 : (pyIter (uget ui f)).filter (fun x => !(sentinels.contains x))
      = pyIter (uget ui f) :=
    clean_filter_sentinels _ (fun t ht => (hu t ht).2.2.2)
  rw [match_any, confMatch]
  simp only [e1, e2, e3, e4, e5]

theorem confPair_num_eq (w : ℚ) (f : String) (row : RefRow) (ui : UserInput)
    (hui : cleanUI ui = true) (hrow : cleanRow row = true) :
    (confPair w f row ui).1 = matchIfSetScore w f row ui := by
  by_cases hv : valid_user (uget ui f) = true
  · simp only [confPair, matchIfSetScore, hv, if_true, Bool.true_and]
    rw [match_any_eq_confMatch row ui f (uget_clean ui hui f) hrow]
  · have hv2 : valid_user (uget ui f) = false := by
      simpa using hv
    simp [confPair, matchIfSetScore, hv2]

theorem confVector_num_eq (row : RefRow) (ui : UserInput)
    (hui : cleanUI ui = true) (hrow : cleanRow row = true) :
    (confVector row ui).1 = vectorScore row ui := by
  by_cases hv : valid_user (uget ui "Vector Exposure") = true
  · simp only [confVector, vectorScore, hv, if_true]
    by_cases ho : (pyIter (uget ui "Vector Exposure")).map pyLower =
        ["other(including unknown)"]
    · simp [ho]
    · have hmm : match_any ((pyIter (uget ui "Vector Exposure")).map pyLower)
          (gl row "Vector Exposure") = confMatch row ui "Vector Exposure" := by
        have e3 : (pyIter (uget ui "Vector Exposure")).map pyLower =
            pyIter (uget ui "Vector Exposure") :=
          clean_map_lower _
            (fun t ht => (cleanVal_spec _ (uget_clean ui hui _) t ht).2.1)
        rw [e3]
        exact match_any_eq_confMatch row ui "Vector Exposure"
          (uget_clean ui hui _) hrow
      simp [ho, hmm]
  · have hv2 : valid_user (uget ui "Vector Exposure") = false := by
      simpa using hv
    simp [confVector, vectorScore, hv2]

theorem confSymptoms_num_eq (row : RefRow) (ui : UserInput)
    (hui : cleanUI ui = true) :
    (confSymptoms row ui).1 = symptomsScore row ui := by
  by_cases hv : valid_user (uget ui "Symptoms") = true
  · have hu := cleanVal_spec _ (uget_clean ui hui "Symptoms")
    have e1 : (pyIter (uget ui "Symptoms")).filter
        (fun s => !(pyStrip s == "")) = pyIter (uget ui "Symptoms") :=
      clean_filter_blank _ (fun t ht => ⟨(hu t ht).1, (hu t ht).2.2.1⟩)
    simp only [confSymptoms, symptomsScore, hv, if_true, e1]
  · have hv2 : valid_user (uget ui "Symptoms") = false := by
      simpa using hv
    simp [confSymptoms, symptomsScore, hv2]

theorem confBloodFilm_num_eq (row : RefRow) (ui : UserInput) :
    (confBloodFilm row ui).1 = bloodFilmScore row ui := by
  by_cases hv : valid_user
      (.vlist (firstOrSentinel (uget ui "Blood Film Result"))) = true
  · simp only [confBloodFilm, bloodFilmScore, hv, if_true]
  · have hv2 : valid_user
        (.vlist (firstOrSentinel (uget ui "Blood Film Result"))) = false := by
      simpa using hv
    simp [confBloodFilm, bloodFilmScore, hv2]

theorem confLft_num_eq (row : RefRow) (ui : UserInput) :
    (confLft row ui).1 = lftScore row ui := by
  by_cases hv : valid_user
      (.vlist (firstOrSentinel (uget ui "Liver Function Tests"))) = true
  · simp only [confLft, lftScore, hv, if_true]
  · have hv2 : valid_user
        (.vlist (firstOrSentinel (uget ui "Liver Function Tests")))
          = false := by
      simpa using hv
    simp [confLft, lftScore, hv2]

theorem confBinary_num_eq (f : String) (row : RefRow) (ui : UserInput) :
    (confBinary f row ui).1 = binaryScore f row ui := by
  by_cases hv : valid_user (.vlist (firstOrSentinel (uget ui f))) = true
  · simp only [confBinary, binaryScore, hv, if_true, Bool.true_and]
  · have hv2 : valid_user (.vlist (firstOrSentinel (uget ui f)))
        = false := by
      simpa using hv
    simp [confBinary, binaryScore, hv2]

theorem confCysts_num_eq (row : RefRow) (ui : UserInput) :
    (confCysts row ui).1 = cystsScore row ui := by
  by_cases hv : valid_user
      (.vlist (firstOrSentinel (uget ui "Cysts on Imaging"))) = true
  · simp only [confCysts, cystsScore, hv, if_true]
  · have hv2 : valid_user
        (.vlist (firstOrSentinel (uget ui "Cysts on Imaging"))) = false := by
      simpa using hv
    simp [confCysts, cystsScore, hv2]

theorem fst_list_sum (l : List (ℚ × ℚ)) : l.sum.1 = (l.map Prod.fst).sum := by
  induction l with
  | nil => rfl
  | cons a t ih => simp [List.sum_cons, Prod.fst_add, ih]

theorem snd_list_sum (l : List (ℚ × ℚ)) : l.sum.2 = (l.map Prod.snd).sum := by
  induction l with
  | nil => rfl
  | cons a t ih => simp [List.sum_cons, Prod.snd_add, ih]

/-- Counterexample to claim C6 as stated: for Countries finding
(unknown, spain) against reference (Unknown), score_entry awards the full 5
(the placeholder token matches through _match_any) while the
compute_user_confidence numerator is 0 (its match closure removes
placeholder tokens), so the per-field numerators do not always agree. -/
theorem C6_counterexample :
    matchIfSetScore 5 "Countries Visited" [("Countries Visited", "Unknown")]
      [("Countries Visited", PyVal.vlist ["unknown", "spain"])] = 5 ∧
    (confPair 5 "Countries Visited" [("Countries Visited", "Unknown")]
      [("Countries Visited", PyVal.vlist ["unknown", "spain"])]).1 = 0 := by
  constructor
  · decide
  · decide

/-- Claim C6 (amended): for findings whose tokens are trimmed, lowercase,
non-empty and non-placeholder (the normal form the app submits) and
reference rows whose split tokens are likewise normal, every per-field
numerator of compute_user_confidence equals the per-field contribution of
score_entry, the summed numerator equals the row score, and the adaptive
denominator is exactly the sum of the weights of the populated fields.
Without that normal form the metrics can differ: score_entry lets
placeholder tokens match while compute_user_confidence removes them, and
the Symptoms denominators count blank tokens differently. -/
theorem C6_confidence_mirrors_score (row : RefRow) (ui : UserInput)
    (hui : cleanUI ui = true) (hrow : cleanRow row = true) :
    ((confPair 5 "Countries Visited" row ui).1 =
        matchIfSetScore 5 "Countries Visited" row ui) ∧
    ((confPair 5 "Anatomy Involvement" row ui).1 =
        matchIfSetScore 5 "Anatomy Involvement" row ui) ∧
    ((confVector row ui).1 = vectorScore row ui) ∧
    ((confSymptoms row ui).1 = symptomsScore row ui) ∧
    ((confPair 5 "Duration of Illness" row ui).1 =
        matchIfSetScore 5 "Duration of Illness" row ui) ∧
    ((confPair 8 "Animal Contact Type" row ui).1 =
        matchIfSetScore 8 "Animal Contact Type" row ui) ∧
    ((confBloodFilm row ui).1 = bloodFilmScore row ui) ∧
    ((confPair 2 "Immune Status" row ui).1 =
        matchIfSetScore 2 "Immune Status" row ui) ∧
    ((confLft row ui).1 = lftScore row ui) ∧
    (∀ f : String, (confBinary f row ui).1 = binaryScore f row ui) ∧
    ((confCysts row ui).1 = cystsScore row ui) ∧
    ((confTotals row ui).1 = rowScore row ui) ∧
    ((confTotals row ui).2 =
      (if valid_user (uget ui "Countries Visited") then 5 else 0) +
      (if valid_user (uget ui "Anatomy Involvement") then 5 else 0) +
      (if valid_user (uget ui "Vector Exposure") then 8 else 0) +
      (if valid_user (uget ui "Symptoms") then 10 else 0) +
      (if valid_user (uget ui "Duration of Illness") then 5 else 0) +
      (if valid_user (uget ui "Animal Contact Type") then 8 else 0) +
      (if valid_user (.vlist (firstOrSentinel (uget ui "Blood Film Result")))
        then 15 else 0) +
      (if valid_user (uget ui "Immune Status") then 2 else 0) +
      (if valid_user (.vlist (firstOrSentinel (uget ui "Liver Function Tests")))
        then 5 else 0) +
      (binaryFields.map (fun f =>
        if valid_user (.vlist (firstOrSentinel (uget ui f)))
        then (5 : ℚ) else 0)).sum +
      (if valid_user (.vlist (firstOrSentinel (uget ui "Cysts on Imaging")))
        then 10 else 0)) := by
  refine ⟨confPair_num_eq 5 _ row ui hui hrow, confPair_num_eq 5 _ row ui hui hrow,
    confVector_num_eq row ui hui hrow, confSymptoms_num_eq row ui hui,
    confPair_num_eq 5 _ row ui hui hrow, confPair_num_eq 8 _ row ui hui hrow,
    confBloodFilm_num_eq row ui, confPair_num_eq 2 _ row ui hui hrow,
    confLft_num_eq row ui, fun f => confBinary_num_eq f row ui,
    confCysts_num_eq row ui, ?_, ?_⟩
  · rw [confTotals, rowScore]
    simp only [Prod.fst_add, fst_list_sum, List.map_map]
    rw [confPair_num_eq 5 _ row ui hui hrow, confPair_num_eq 5 _ row ui hui hrow,
      confVector_num_eq row ui hui hrow, confSymptoms_num_eq row ui hui,
      confPair_num_eq 5 _ row ui hui hrow, confPair_num_eq 8 _ row ui hui hrow,
      confBloodFilm_num_eq row ui, confPair_num_eq 2 _ row ui hui hrow,
      confLft_num_eq row ui, confCysts_num_eq row ui]
    simp only [Function.comp_def]
    rw [List.map_congr_left (fun f _ => confBinary_num_eq f row ui)]
  · rw [confTotals]
    simp only [Prod.snd_add, snd_list_sum, List.map_map]
    have hp : ∀ (w : ℚ) (f : String), (confPair w f row ui).2 =
        (if valid_user (uget ui f) then w else 0) := by
      intro w f
      by_cases hv : valid_user (uget ui f) = true
      · simp [confPair, hv]
      · have hv2 : valid_user (uget ui f) = false := by simpa using hv
        simp [confPair, hv2]
    have hvec : (confVector row ui).2 =
        (if valid_user (uget ui "Vector Exposure") then (8 : ℚ) else 0) := by
      by_cases hv : valid_user (uget ui "Vector Exposure") = true
      · simp [confVector, hv]
      · have hv2 : valid_user (uget ui "Vector Exposure") = false := by
          simpa using hv
        simp [confVector, hv2]
    have hsy : (confSymptoms row ui).2 =
        (if valid_user (uget ui "Symptoms") then (10 : ℚ) else 0) := by
      by_cases hv : valid_user (uget ui "Symptoms") = true
      · simp [confSymptoms, hv]
      · have hv2 : valid_user (uget ui "Symptoms") = false := by simpa using hv
        simp [confSymptoms, hv2]
    have hbf : (confBloodFilm row ui).2 =
        (if valid_user (.vlist (firstOrSentinel (uget ui "Blood Film Result")))
          then (15 : ℚ) else 0) := by
      by_cases hv : valid_user
          (.vlist (firstOrSentinel (uget ui "Blood Film Result"))) = true
      · simp [confBloodFilm, hv]
      · have hv2 : valid_user
            (.vlist (firstOrSentinel (uget ui "Blood Film Result")))
              = false := by
          simpa using hv
        simp [confBloodFilm, hv2]
    have hlf : (confLft row ui).2 =
        (if valid_user
            (.vlist (firstOrSentinel (uget ui "Liver Function Tests")))
          then (5 : ℚ) else 0) := by
      by_cases hv : valid_user
          (.vlist (firstOrSentinel (uget ui "Liver Function Tests"))) = true
      · simp [confLft, hv]
      · have hv2 : valid_user
            (.vlist (firstOrSentinel (uget ui "Liver Function Tests")))
              = false := by
          simpa using hv
        simp [confLft, hv2]
    have hbin : ∀ f : String, (confBinary f row ui).2 =
        (if valid_user (.vlist (firstOrSentinel (uget ui f)))
          then (5 : ℚ) else 0) := by
      intro f
      by_cases hv : valid_user (.vlist (firstOrSentinel (uget ui f))) = true
      · simp [confBinary, hv]
      · have hv2 : valid_user (.vlist (firstOrSentinel (uget ui f)))
            = false := by
          simpa using hv
        simp [confBinary, hv2]
    have hcy : (confCysts row ui).2 =
        (if valid_user (.vlist (firstOrSentinel (uget ui "Cysts on Imaging")))
          then (10 : ℚ) else 0) := by
      by_cases hv : valid_user
          (.vlist (firstOrSentinel (uget ui "Cysts on Imaging"))) = true
      · simp [confCysts, hv]
      · have hv2 : valid_user
            (.vlist (firstOrSentinel (uget ui "Cysts on Imaging")))
              = false := by
          simpa using hv
        simp [confCysts, hv2]
    rw [hp, hp, hvec, hsy, hp, hp, hbf, hp, hlf, hcy]
    simp only [Function.comp_def]
    rw [List.map_congr_left (fun f _ => hbin f)]

/-- Witness for C6 at a clean one-row table and clean findings. -/
theorem C6_confidence_mirrors_score_witness :
    (confTotals [("Countries Visited", "egypt;sudan"), ("Symptoms", "fever")]
      [("Countries Visited", PyVal.vlist ["egypt"]),
       ("Symptoms", PyVal.vlist ["fever", "cough"])]).1 =
      rowScore [("Countries Visited", "egypt;sudan"), ("Symptoms", "fever")]
        [("Countries Visited", PyVal.vlist ["egypt"]),
         ("Symptoms", PyVal.vlist ["fever", "cough"])] ∧
    (confSymptoms [("Countries Visited", "egypt;sudan"), ("Symptoms", "fever")]
      [("Countries Visited", PyVal.vlist ["egypt"]),
       ("Symptoms", PyVal.vlist ["fever", "cough"])]).1 =
      symptomsScore
        [("Countries Visited", "egypt;sudan"), ("Symptoms", "fever")]
        [("Countries Visited", PyVal.vlist ["egypt"]),
         ("Symptoms", PyVal.vlist ["fever", "cough"])] :=
  ⟨(C6_confidence_mirrors_score
      [("Countries Visited", "egypt;sudan"), ("Symptoms", "fever")]
      [("Countries Visited", PyVal.vlist ["egypt"]),
       ("Symptoms", PyVal.vlist ["fever", "cough"])]
      (by decide) (by decide)).2.2.2.2.2.2.2.2.2.2.2.1,
   (C6_confidence_mirrors_score
      [("Countries Visited", "egypt;sudan"), ("Symptoms", "fever")]
      [("Countries Visited", PyVal.vlist ["egypt"]),
       ("Symptoms", PyVal.vlist ["fever", "cough"])]
      (by decide) (by decide)).2.2.2.1⟩

/-- Ascending stable order on positions: strictly smaller value first, equal
values in position order. -/
def argOrder (vals : List ℚ) (k l : ℕ) : Prop :=
  valAt vals k < valAt vals l ∨ (valAt vals k = valAt vals l ∧ k < l)

theorem orderedInsert_argOrder (vals : List ℚ) (i : ℕ) :
    ∀ acc : List ℕ, List.Pairwise (argOrder vals) acc →
      (∀ j ∈ acc, j < i) →
      List.Pairwise (argOrder vals) (List.orderedInsert (argLt vals) i acc)
  | [] => by
      intro _ _
      simp [List.orderedInsert]
  | j :: rest => by
      intro hp hlt
      rw [List.orderedInsert]
      by_cases hij : argLt vals i j
      · rw [if_pos hij]
        refine List.Pairwise.cons ?_ hp
        intro m hm
        rcases List.mem_cons.mp hm with rfl | hm2
        · exact Or.inl hij
        · have hjm := List.rel_of_pairwise_cons hp hm2
          rcases hjm with h1 | ⟨h1, _⟩
          · exact Or.inl (lt_trans hij h1)
          · exact Or.inl (h1 ▸ hij)
      · rw [if_neg hij]
        refine List.Pairwise.cons ?_
          (orderedInsert_argOrder vals i rest (List.pairwise_cons.mp hp).2
            (fun j2 hj2 => hlt j2 (List.mem_cons_of_mem j hj2)))
        intro m hm
        have hm2 : m ∈ i :: rest :=
          (List.perm_orderedInsert (argLt vals) i rest).mem_iff.mp hm
        rcases List.mem_cons.mp hm2 with hmi | hm3
        · rw [hmi]
          have hji : valAt vals j ≤ valAt vals i := le_of_not_lt hij
          rcases eq_or_lt_of_le hji with heq | hlt2
          · exact Or.inr ⟨heq, hlt j (List.mem_cons_self j rest)⟩
          · exact Or.inl hlt2
        · exact List.rel_of_pairwise_cons hp hm3

theorem foldl_orderedInsert_pairwise (vals : List ℚ) (l : List ℕ) :
    ∀ acc : List ℕ, List.Pairwise (· < ·) l →
      List.Pairwise (argOrder vals) acc →
      (∀ j ∈ acc, ∀ k ∈ l, j < k) →
      List.Pairwise (argOrder vals)
        (l.foldl (fun acc i => List.orderedInsert (argLt vals) i acc) acc) := by
  induction l with
  | nil =>
      intro acc _ hacc _
      simpa using hacc
  | cons i l2 ih =>
      intro acc hl hacc hcross
      rw [List.foldl_cons]
      apply ih _ (List.pairwise_cons.mp hl).2
        (orderedInsert_argOrder vals i acc hacc
          (fun j hj => hcross j hj i (List.mem_cons_self i l2)))
      intro j hj k hk
      have hj2 : j ∈ i :: acc :=
        (List.perm_orderedInsert (argLt vals) i acc).mem_iff.mp hj
      rcases List.mem_cons.mp hj2 with hji | hj3
      · rw [hji]
        exact List.rel_of_pairwise_cons hl hk
      · exact hcross j hj3 k (List.mem_cons_of_mem i hk)

theorem foldl_orderedInsert_perm (vals : List ℚ) (l : List ℕ) :
    ∀ acc : List ℕ,
      (l.foldl (fun acc i => List.orderedInsert (argLt vals) i acc)
        acc).Perm (acc ++ l) := by
  induction l with
  | nil =>
      intro acc
      simp
  | cons i l2 ih =>
      intro acc
      rw [List.foldl_cons]
      refine (ih (List.orderedInsert (argLt vals) i acc)).trans ?_
      refine (List.Perm.append_right l2
        (List.perm_orderedInsert (argLt vals) i acc)).trans ?_
      exact List.perm_middle.symm

theorem npInsertionArgsort_pairwise (vals : List ℚ) :
    List.Pairwise (argOrder vals) (npInsertionArgsort vals) :=
  foldl_orderedInsert_pairwise vals (List.range vals.length) []
    (List.pairwise_lt_range _) List.Pairwise.nil (by simp)

theorem npInsertionArgsort_perm (vals : List ℚ) :
    (npInsertionArgsort vals).Perm (List.range vals.length) := by
  have h := foldl_orderedInsert_perm vals (List.range vals.length) []
  simpa [npInsertionArgsort] using h

theorem range_reverse_getD (n k : ℕ) (hk : k < n) :
    (List.range n).reverse.getD k 0 = n - 1 - k := by
  rw [List.getD_eq_getElem?_getD,
    List.getElem?_eq_getElem (by simpa using hk)]
  simp [List.getElem_reverse]

theorem valAt_reverse (vals : List ℚ) (k : ℕ) (hk : k < vals.length) :
    valAt vals.reverse k = valAt vals (vals.length - 1 - k) := by
  rw [valAt, valAt]
  rw [List.getD_eq_getElem?_getD, List.getD_eq_getElem?_getD]
  rw [List.getElem?_eq_getElem (by simpa using hk),
    List.getElem?_eq_getElem (show vals.length - 1 - k < vals.length by
      omega)]
  simp [List.getElem_reverse]

theorem nargsortDesc_sorted_stable (vals : List ℚ) (h : vals.length ≤ 16) :
    List.Pairwise (fun i j => valAt vals j < valAt vals i ∨
      (valAt vals i = valAt vals j ∧ i < j)) (nargsortDesc vals) ∧
    (nargsortDesc vals).Perm (List.range vals.length) := by
  have hrl : vals.reverse.length = vals.length := List.length_reverse vals
  have hq : npArgsortQuick vals.reverse = npInsertionArgsort vals.reverse := by
    rw [npArgsortQuick, if_pos (by rw [hrl]; exact h)]
  have hperm0 : (npInsertionArgsort vals.reverse).Perm
      (List.range vals.length) := by
    have hp := npInsertionArgsort_perm vals.reverse
    rwa [hrl] at hp
  have hmemlt : ∀ k ∈ npInsertionArgsort vals.reverse, k < vals.length := by
    intro k hk
    have hm := hperm0.mem_iff.mp hk
    simpa using hm
  have hpair := npInsertionArgsort_pairwise vals.reverse
  constructor
  · rw [nargsortDesc, hq, List.pairwise_reverse, List.pairwise_map]
    refine hpair.imp_of_mem ?_
    intro k l hk hl hS
    have hkn := hmemlt k hk
    have hln := hmemlt l hl
    rw [range_reverse_getD _ _ hkn, range_reverse_getD _ _ hln]
    rcases hS with h1 | ⟨h1, h2⟩
    · left
      rw [valAt_reverse vals k hkn, valAt_reverse vals l hln] at h1
      exact h1
    · right
      refine ⟨?_, by omega⟩
      rw [valAt_reverse vals k hkn, valAt_reverse vals l hln] at h1
      exact h1.symm
  · rw [nargsortDesc, hq]
    refine (List.reverse_perm _).trans ?_
    refine (hperm0.map
      (fun k => (List.range vals.length).reverse.getD k 0)).trans ?_
    have h2 : (List.range vals.length).map
        (fun k => (List.range vals.length).reverse.getD k 0) =
          (List.range vals.length).reverse := by
      apply List.ext_getElem
      · simp
      · intro k hk1 hk2
        simp only [List.getElem_map, List.getElem_range]
        rw [range_reverse_getD _ _ (by simpa using hk1)]
        rw [List.getElem_reverse]
        simp
    rw [h2]
    exact List.reverse_perm _

theorem getD_likelihood (df : List RefRow) (ui : UserInput) (i : ℕ) :
    ((rowScoreds df ui).getD i default).likelihood =
      valAt ((rowScoreds df ui).map (fun s => s.likelihood)) i := by
  by_cases hi : i < (rowScoreds df ui).length
  · rw [valAt, List.getD_eq_getElem?_getD, List.getD_eq_getElem?_getD,
      List.getElem?_eq_getElem hi,
      List.getElem?_eq_getElem (by simpa using hi)]
    simp
  · rw [valAt, List.getD_eq_getElem?_getD, List.getD_eq_getElem?_getD,
      List.getElem?_eq_none (Nat.le_of_not_lt hi),
      List.getElem?_eq_none (by simpa using Nat.le_of_not_lt hi)]
    rfl

/-- Claim C1 (amended): for reference tables of at most 16 rows (where the
numpy argsort called by pandas runs its stable insertion sort)
score_entry returns the rows ordered by the sort_values permutation, which
is a permutation of all row positions, is descending in Likelihood, and
keeps rows with equal Likelihood in their original reference order; the
returned list is descending in Likelihood.  For larger tables numpy
switches to its partition-based introsort, which can reorder ties (see the
counterexample), so stability is not guaranteed in general. -/
theorem C1_sorted_stable_small (df : List RefRow) (ui : UserInput)
    (hne : df ≠ []) (hlen : df.length ≤ 16) :
    score_entry df ui = some ((sortPerm df ui).map
      (fun i => (rowScoreds df ui).getD i default)) ∧
    (sortPerm df ui).Perm (List.range df.length) ∧
    List.Pairwise (fun i j =>
      valAt ((rowScoreds df ui).map (fun s => s.likelihood)) j <
        valAt ((rowScoreds df ui).map (fun s => s.likelihood)) i ∨
      (valAt ((rowScoreds df ui).map (fun s => s.likelihood)) i =
        valAt ((rowScoreds df ui).map (fun s => s.likelihood)) j ∧ i < j))
      (sortPerm df ui) ∧
    List.Pairwise (fun a b => b.likelihood ≤ a.likelihood)
      ((sortPerm df ui).map
        (fun i => (rowScoreds df ui).getD i default)) := by
  have hvl : ((rowScoreds df ui).map (fun s => s.likelihood)).length =
      df.length := by
    simp [rowScoreds]
  have hmain := nargsortDesc_sorted_stable
    ((rowScoreds df ui).map (fun s => s.likelihood)) (by rw [hvl]; exact hlen)
  have hsp : sortPerm df ui =
      nargsortDesc ((rowScoreds df ui).map (fun s => s.likelihood)) := rfl
  refine ⟨?_, ?_, ?_, ?_⟩
  · rw [score_entry, if_neg ?_]
    intro hc
    apply hne
    have hl0 : (rowScoreds df ui).length = 0 := by
      rw [List.isEmpty_iff_length_eq_zero] at hc
      exact hc
    rw [rowScoreds, List.length_map] at hl0
    exact List.length_eq_zero.mp hl0
  · rw [hsp, ← hvl]
    exact hmain.2
  · rw [hsp]
    exact hmain.1
  · rw [List.pairwise_map]
    refine (hmain.1).imp ?_
    intro a b hab
    rw [getD_likelihood df ui a, getD_likelihood df ui b]
    rcases hab with h1 | ⟨h1, _⟩
    · exact le_of_lt h1
    · exact le_of_eq h1.symm

/-- Witness for C1 at a two-row table with empty findings. -/
theorem C1_sorted_stable_small_witness :
    score_entry [[("Parasite", "A")], [("Parasite", "B")]] [] =
      some ((sortPerm [[("Parasite", "A")], [("Parasite", "B")]] []).map
        (fun i =>
          (rowScoreds [[("Parasite", "A")], [("Parasite", "B")]] []).getD i
            default)) ∧
    (sortPerm [[("Parasite", "A")], [("Parasite", "B")]] []).Perm
      (List.range
        ([[("Parasite", "A")], [("Parasite", "B")]] : List RefRow).length) ∧
    List.Pairwise (fun i j =>
      valAt ((rowScoreds [[("Parasite", "A")], [("Parasite", "B")]] []).map
        (fun s => s.likelihood)) j <
        valAt ((rowScoreds [[("Parasite", "A")], [("Parasite", "B")]] []).map
          (fun s => s.likelihood)) i ∨
      (valAt ((rowScoreds [[("Parasite", "A")], [("Parasite", "B")]] []).map
        (fun s => s.likelihood)) i =
        valAt ((rowScoreds [[("Parasite", "A")], [("Parasite", "B")]] []).map
          (fun s => s.likelihood)) j ∧ i < j))
      (sortPerm [[("Parasite", "A")], [("Parasite", "B")]] []) ∧
    List.Pairwise (fun a b => b.likelihood ≤ a.likelihood)
      ((sortPerm [[("Parasite", "A")], [("Parasite", "B")]] []).map
        (fun i =>
          (rowScoreds [[("Parasite", "A")], [("Parasite", "B")]] []).getD i
            default)) :=
  C1_sorted_stable_small [[("Parasite", "A")], [("Parasite", "B")]] []
    (by decide) (by decide)

/-- Seventeen one-column reference rows with identical content, used only
to exhibit the tie-order permutation of the introsort path. -/
def tieRows : List RefRow :=
  [[("Parasite", "P0")], [("Parasite", "P1")], [("Parasite", "P2")],
   [("Parasite", "P3")], [("Parasite", "P4")], [("Parasite", "P5")],
   [("Parasite", "P6")], [("Parasite", "P7")], [("Parasite", "P8")],
   [("Parasite", "P9")], [("Parasite", "P10")], [("Parasite", "P11")],
   [("Parasite", "P12")], [("Parasite", "P13")], [("Parasite", "P14")],
   [("Parasite", "P15")], [("Parasite", "P16")]]

/-- Counterexample to claim C1 as stated: on a table of 17 rows that all
score Likelihood 0 (every likelihood equal, so a stable sort would have to
return them in reference order P0..P16), score_entry returns the rows in
the order produced by the numpy introsort partition, which is not the
reference order: P9 comes second, before P1. -/
theorem C1_counterexample :
    (score_entry tieRows []).map (fun l => l.map (fun s => s.parasite)) =
      some ["P0", "P9", "P15", "P14", "P13", "P12", "P11", "P10", "P8",
        "P1", "P7", "P6", "P5", "P4", "P3", "P2", "P16"] ∧
    (score_entry tieRows []).map (fun l => l.map (fun s => s.likelihood)) =
      some (List.replicate 17 0) ∧
    (["P0", "P9", "P15", "P14", "P13", "P12", "P11", "P10", "P8", "P1",
      "P7", "P6", "P5", "P4", "P3", "P2", "P16"] : List String) ≠
      ["P0", "P1", "P2", "P3", "P4", "P5", "P6", "P7", "P8", "P9", "P10",
       "P11", "P12", "P13", "P14", "P15", "P16"] := by
  have hout : rowScoreds tieRows [] =
      [⟨"P0", "", "", 0, 0, "", [("Parasite", "P0")]⟩,
       ⟨"P1", "", "", 0, 0, "", [("Parasite", "P1")]⟩,
       ⟨"P2", "", "", 0, 0, "", [("Parasite", "P2")]⟩,
       ⟨"P3", "", "", 0, 0, "", [("Parasite", "P3")]⟩,
       ⟨"P4", "", "", 0, 0, "", [("Parasite", "P4")]⟩,
       ⟨"P5", "", "", 0, 0, "", [("Parasite", "P5")]⟩,
       ⟨"P6", "", "", 0, 0, "", [("Parasite", "P6")]⟩,
       ⟨"P7", "", "", 0, 0, "", [("Parasite", "P7")]⟩,
       ⟨"P8", "", "", 0, 0, "", [("Parasite", "P8")]⟩,
       ⟨"P9", "", "", 0, 0, "", [("Parasite", "P9")]⟩,
       ⟨"P10", "", "", 0, 0, "", [("Parasite", "P10")]⟩,
       ⟨"P11", "", "", 0, 0, "", [("Parasite", "P11")]⟩,
       ⟨"P12", "", "", 0, 0, "", [("Parasite", "P12")]⟩,
       ⟨"P13", "", "", 0, 0, "", [("Parasite", "P13")]⟩,
       ⟨"P14", "", "", 0, 0, "", [("Parasite", "P14")]⟩,
       ⟨"P15", "", "", 0, 0, "", [("Parasite", "P15")]⟩,
       ⟨"P16", "", "", 0, 0, "", [("Parasite", "P16")]⟩] := by
    rw [tieRows, rowScoreds]
    simp only [List.map_cons, List.map_nil, mkScored_nil]
    decide
  have hperm : sortPerm tieRows [] =
      [0, 9, 15, 14, 13, 12, 11, 10, 8, 1, 7, 6, 5, 4, 3, 2, 16] := by
    rw [sortPerm, hout]
    decide
  refine ⟨?_, ?_, by decide⟩
  · rw [score_entry, hperm, hout]
    decide
  · rw [score_entry, hperm, hout]
    decide

end ParAID
